import Mathlib

/-! gorfc: error values and the client connection.

A shallow embedding of `src/gorfc/gorfc.go`.

Conventions of the embedding.

* A Go `string` is a Lean `String`; `uint` is `Nat`.
* A value of an interface type is represented by what its methods return:
  an `error` by the text of `Error()`, a `fmt.Stringer` by the text of
  `String()`.  A nil interface value or nil pointer is `none`.
* A method with a pointer receiver is a function from the receiver's fields
  before the call to an `Outcome`: the receiver's fields after the call, the
  returned values, and the operands the body hands to `log.Println`.
* Only the statements the Go compiler sees are translated.  The blocks that
  the source keeps inside `/* ... */` after each `return` are comments and are
  not part of any definition below.
-/

namespace gorfc

/-! ## fmt.Sprintf, restricted to the directives the source uses -/

/-- An operand of `fmt.Sprintf`: a Go string, or a value that implements
`fmt.Stringer`, given by its dynamic type name and the text `String()` returns. -/
inductive FmtOperand where
  | string (s : String)
  | stringer (typeName : String) (text : String)
  deriving Repr, DecidableEq

/-- The text the verbs `%s` and `%v` print for an operand: a string is copied
as it is, a Stringer prints what `String()` returns. -/
def FmtOperand.text : FmtOperand → String
  | .string s => s
  | .stringer _ t => t

/-- The dynamic type name fmt prints in its diagnostics. -/
def FmtOperand.typeName : FmtOperand → String
  | .string _ => "string"
  | .stringer n _ => n

/-- The `type=value` items of fmt's `%!(EXTRA ...)` diagnostic, comma separated. -/
def extraOperands : List FmtOperand → List Char
  | [] => []
  | [a] => a.typeName.data ++ '=' :: a.text.data
  | a :: b :: rest =>
      a.typeName.data ++ '=' :: a.text.data ++ ',' :: ' ' :: extraOperands (b :: rest)

/-- The loop of `fmt.Sprintf` over the format.  Text outside a directive is
copied; `%%` prints a percent sign; `%s` and `%v` consume the next operand and
print its text, or `%!s(MISSING)` when none is left; a `%` that ends the format
prints `%!(NOVERB)`; operands left over at the end are reported as
`%!(EXTRA ...)`.  Flags, widths, precisions and the other verbs do not occur in
the source and are not interpreted: such a directive is copied as written. -/
def doPrintf : List Char → List FmtOperand → List Char
  | [], [] => []
  | [], a :: rest => "%!(EXTRA ".data ++ extraOperands (a :: rest) ++ [')']
  | ['%'], args => "%!(NOVERB)".data ++ doPrintf [] args
  | '%' :: v :: fmt, args =>
      if v = '%' then '%' :: doPrintf fmt args
      else if v = 's' ∨ v = 'v' then
        match args with
        | [] => '%' :: '!' :: v :: "(MISSING)".data ++ doPrintf fmt []
        | a :: rest => a.text.data ++ doPrintf fmt rest
      else '%' :: v :: doPrintf fmt args
  | c :: fmt, args => c :: doPrintf fmt args

/-- The Go function `fmt.Sprintf` on the fragment above. -/
def Sprintf (format : String) (a : List FmtOperand) : String :=
  ⟨doPrintf format.data a⟩

/-! ## Errors -/

/-- Go's builtin `error` interface: a non-nil value, observed through `Error()`. -/
structure error where
  Error : String
  deriving Repr, DecidableEq

/-- The struct `rfcSDKError`. -/
structure rfcSDKError where
  Message : String
  Code : String
  Key : String
  AbapMsgClass : String
  AbapMsgType : String
  AbapMsgNumber : String
  AbapMsgV1 : String
  AbapMsgV2 : String
  AbapMsgV3 : String
  AbapMsgV4 : String
  deriving Repr, DecidableEq

/-- The method `func (err rfcSDKError) String() string`. -/
def rfcSDKError.String (err : rfcSDKError) : String :=
  Sprintf "rfcSDKError[%v, %v, %v, %v, %v, %v, %v, %v, %v, %v]"
    [.string err.Message, .string err.Code, .string err.Key,
     .string err.AbapMsgClass, .string err.AbapMsgType, .string err.AbapMsgNumber,
     .string err.AbapMsgV1, .string err.AbapMsgV2, .string err.AbapMsgV3,
     .string err.AbapMsgV4]

/-- The struct `RfcError`, returned by the SAP NWRFC SDK. -/
structure RfcError where
  Description : String
  ErrorInfo : rfcSDKError
  deriving Repr, DecidableEq

/-- The method `func (err RfcError) Error() string`.  The second operand is the
`rfcSDKError` value itself, which fmt prints through its `String` method. -/
def RfcError.Error (err : RfcError) : String :=
  Sprintf "NWRFC SDK error: %s | %s"
    [.string err.Description, .stringer "gorfc.rfcSDKError" err.ErrorInfo.String]

/-- The struct `GoRfcError`, returned by gorfc; `GoError` is `none` for nil. -/
structure GoRfcError where
  Description : String
  GoError : Option error
  deriving Repr, DecidableEq

/-- The method `func (err GoRfcError) Error() string`. -/
def GoRfcError.Error (err : GoRfcError) : String :=
  match err.GoError with
  | some goerror =>
      Sprintf "GORFC error: %s | %s" [.string err.Description, .string goerror.Error]
  | none => Sprintf "GORFC error: %s" [.string err.Description]

/-- The function `goRfcError`: the struct the returned pointer refers to. -/
def goRfcError (description : String) (goerror : Option error) : GoRfcError :=
  { Description := description, GoError := goerror }

/-! ## Metadata -/

mutual
/-- The struct `FieldDescription`. -/
inductive FieldDescription where
  | mk (Name FieldType : String) (NucLength NucOffset UcLength UcOffset Decimals : Nat)
      (TypeDesc : TypeDescription)
/-- The struct `TypeDescription`. -/
inductive TypeDescription where
  | mk (Name : String) (NucLength UcLength : Nat) (Fields : List FieldDescription)
end

/-- The struct `ParameterDescription`. -/
structure ParameterDescription where
  Name : String
  ParameterType : String
  Direction : String
  NucLength : Nat
  UcLength : Nat
  Decimals : Nat
  DefaultValue : String
  ParameterText : String
  Optional : Bool
  TypeDesc : TypeDescription

/-- The struct `FunctionDescription`; a nil slice is the empty list. -/
structure FunctionDescription where
  Name : String
  Parameters : List ParameterDescription

/-- The zero value of `FunctionDescription`, which a named result holds until
it is assigned. -/
def FunctionDescription.zero : FunctionDescription :=
  { Name := "", Parameters := [] }

/-- The function `GetNWRFCLibVersion`: `(major, minor, patchlevel)`. -/
def GetNWRFCLibVersion : Nat × Nat × Nat :=
  (0, 0, 0)

/-! ## Connection -/

/-- A Go map with string keys: `none` is the nil map, `some` lists the entries. -/
abbrev GoMap (α : Type) := Option (List (String × α))

/-- The type `ConnectionParameters`, a `map[string]string`. -/
abbrev ConnectionParameters := GoMap String

/-- The type `ConnectionAttributes`, a `map[string]string`. -/
abbrev ConnectionAttributes := GoMap String

/-- A value held in an `interface{}`, as `Call` receives and returns them. -/
inductive GoValue where
  | nil
  | bool (b : Bool)
  | int (i : Int)
  | string (s : String)
  | slice (items : List GoValue)
  | map (entries : List (String × GoValue))
  | struct (fields : List (String × GoValue))

/-- An operand handed to `log.Println`. -/
inductive LogOperand where
  | string (s : String)
  | bool (b : Bool)
  | params (p : ConnectionParameters)
  | value (v : GoValue)

/-- The struct `Connection`, with the fields the source declares. -/
structure Connection where
  rstrip : Bool
  returnImportParams : Bool
  alive : Bool
  connectionParams : ConnectionParameters
  deriving Repr, DecidableEq

/-- What a package-level function yields: its results and the operands of its
`log.Println` call. -/
structure Returned (α : Type) where
  ret : α
  log : List LogOperand

/-- What a method with receiver `conn *Connection` yields: the receiver's fields
after the call, its results, and the operands of its `log.Println` call. -/
structure Outcome (α : Type) where
  conn : Connection
  ret : α
  log : List LogOperand

/-- The function `ConnectionFromParams`.  The named results `conn` and `err`
start as nil; the body logs, assigns `err = nil` and returns. -/
def ConnectionFromParams (connectionParams : ConnectionParameters) :
    Returned (Option Connection × Option error) :=
  { ret := (none, none)
    log := [.string "Calling: ConnectionFromParams with:", .params connectionParams] }

/-- The function `ConnectionFromDest`. -/
def ConnectionFromDest (dest : String) : Returned (Option Connection × Option error) :=
  { ret := (none, none)
    log := [.string "Calling: ConnectionFromDest with:", .string dest] }

/-- The method `RStrip`: logs and returns the nil pointer. -/
def RStrip (conn : Connection) (rstrip : Bool) : Outcome (Option Connection) :=
  { conn := conn, ret := none, log := [.string "Calling: RStrip with:", .bool rstrip] }

/-- The method `ReturnImportParams`: logs and returns the nil pointer. -/
def ReturnImportParams (conn : Connection) (returnImportParams : Bool) :
    Outcome (Option Connection) :=
  { conn := conn, ret := none
    log := [.string "Calling: ReturnImportParams with:", .bool returnImportParams] }

/-- The method `Alive`: logs and returns `true`. -/
def Alive (conn : Connection) : Outcome Bool :=
  { conn := conn, ret := true, log := [.string "Calling: Alive"] }

/-- The method `Close`: logs, assigns `err = nil` and returns. -/
def Close (conn : Connection) : Outcome (Option error) :=
  { conn := conn, ret := none, log := [.string "Calling: Close"] }

/-- The method `Open`: logs, assigns `err = nil` and returns. -/
def Open (conn : Connection) : Outcome (Option error) :=
  { conn := conn, ret := none, log := [.string "Calling: Open"] }

/-- The method `Reopen`: logs, assigns `err = nil` and returns. -/
def Reopen (conn : Connection) : Outcome (Option error) :=
  { conn := conn, ret := none, log := [.string "Calling: Reopen"] }

/-- The method `Ping`: logs, assigns `err = nil` and returns. -/
def Ping (conn : Connection) : Outcome (Option error) :=
  { conn := conn, ret := none, log := [.string "Calling: Ping"] }

/-- The method `GetConnectionAttributes`: the named result `connAttr` stays the
nil map. -/
def GetConnectionAttributes (conn : Connection) :
    Outcome (ConnectionAttributes × Option error) :=
  { conn := conn, ret := (none, none), log := [.string "Called: GetConnectionAttributes"] }

/-- The method `GetFunctionDescription`: the named result `goFuncDesc` stays the
zero value. -/
def GetFunctionDescription (conn : Connection) (goFuncName : String) :
    Outcome (FunctionDescription × Option error) :=
  { conn := conn, ret := (FunctionDescription.zero, none)
    log := [.string "Calling: Getfunctiondescription for", .string goFuncName] }

/-- The method `Call`: the named result `result` stays the nil map. -/
def Call (conn : Connection) (goFuncName : String) (params : GoValue) :
    Outcome (GoMap GoValue × Option error) :=
  { conn := conn, ret := (none, none)
    log := [.string "Calling: Call", .string goFuncName, .string "with params:",
            .value params] }

/-! ## Sample inputs -/

/-- Connection parameters naming a destination. -/
def sampleParams : ConnectionParameters :=
  some [("dest", "QM7")]

/-- A connection in the Closed state. -/
def closedConn : Connection :=
  { rstrip := false, returnImportParams := false, alive := false
    connectionParams := sampleParams }

/-- A connection in the Open state. -/
def openConn : Connection :=
  { rstrip := true, returnImportParams := false, alive := true
    connectionParams := sampleParams }

/-! ## Lemmas on contiguous sublists -/

theorem infix_append_here {α : Type} (l t : List α) : l <:+: l ++ t :=
  ⟨[], t, by simp⟩

theorem infix_append_later {α : Type} {l t : List α} (s : List α) (h : l <:+: t) :
    l <:+: s ++ t := by
  obtain ⟨a, b, hab⟩ := h
  exact ⟨s ++ a, b, by simp [← hab]⟩

theorem infix_cons_later {α : Type} {l t : List α} (c : α) (h : l <:+: t) :
    l <:+: c :: t :=
  infix_append_later [c] h

/-! ## The error messages -/

/-- The text of `rfcSDKError.String()`: the ten fields in declaration order,
separated by a comma and a blank, inside `rfcSDKError[` and `]`. -/
theorem rfcSDKError_String_eq (i : rfcSDKError) :
    i.String = "rfcSDKError[" ++
      ", ".intercalate [i.Message, i.Code, i.Key, i.AbapMsgClass, i.AbapMsgType,
        i.AbapMsgNumber, i.AbapMsgV1, i.AbapMsgV2, i.AbapMsgV3, i.AbapMsgV4] ++ "]" := by
  apply String.ext
  simp [rfcSDKError.String, Sprintf, doPrintf, FmtOperand.text, String.intercalate,
    String.intercalate.go]

/-- Claim C9. For every RfcError, `Error()` is `NWRFC SDK error: `, the
description, ` | rfcSDKError[`, the ten ErrorInfo fields in declaration order
joined by a comma and a blank, and `]`; hence the description and each of the
ten fields occur unmodified as contiguous substrings of the message. -/
theorem RfcError_Error_preserves_diagnostic (e : RfcError) :
    e.Error = "NWRFC SDK error: " ++ e.Description ++ " | rfcSDKError[" ++
        ", ".intercalate [e.ErrorInfo.Message, e.ErrorInfo.Code, e.ErrorInfo.Key,
          e.ErrorInfo.AbapMsgClass, e.ErrorInfo.AbapMsgType, e.ErrorInfo.AbapMsgNumber,
          e.ErrorInfo.AbapMsgV1, e.ErrorInfo.AbapMsgV2, e.ErrorInfo.AbapMsgV3,
          e.ErrorInfo.AbapMsgV4] ++ "]" ∧
    ∀ s ∈ [e.Description, e.ErrorInfo.Message, e.ErrorInfo.Code, e.ErrorInfo.Key,
          e.ErrorInfo.AbapMsgClass, e.ErrorInfo.AbapMsgType, e.ErrorInfo.AbapMsgNumber,
          e.ErrorInfo.AbapMsgV1, e.ErrorInfo.AbapMsgV2, e.ErrorInfo.AbapMsgV3,
          e.ErrorInfo.AbapMsgV4], s.data <:+: e.Error.data := by
  constructor
  · apply String.ext
    simp [RfcError.Error, rfcSDKError.String, Sprintf, doPrintf, FmtOperand.text,
      String.intercalate, String.intercalate.go]
  · intro s hs
    simp only [List.mem_cons, List.mem_singleton, List.not_mem_nil, or_false] at hs
    simp only [RfcError.Error, rfcSDKError.String, Sprintf, doPrintf, FmtOperand.text]
    simp only [Char.reduceEq, if_false, if_true, or_true, true_or, Char.isValue,
      ↓reduceIte, or_self, or_false, List.append_assoc, List.cons_append, List.nil_append]
    rcases hs with rfl | rfl | rfl | rfl | rfl | rfl | rfl | rfl | rfl | rfl | rfl <;>
      repeat (first
        | exact infix_append_here _ _
        | apply infix_cons_later
        | apply infix_append_later)

/-- Claim C10. For every GoRfcError, `Error()` is `GORFC error: ` and the
description when GoError is nil, and that text followed by ` | ` and the
cause's `Error()` when GoError is non-nil; in both cases the message starts
with `GORFC error: ` and the description; and `goRfcError d g` builds an error
with Description `d` and GoError `g`. -/
theorem GoRfcError_Error_format (e : GoRfcError) (d : String) (g : Option error) :
    (e.GoError = none → e.Error = "GORFC error: " ++ e.Description) ∧
    (∀ cause, e.GoError = some cause →
      e.Error = "GORFC error: " ++ e.Description ++ " | " ++ cause.Error) ∧
    ("GORFC error: " ++ e.Description).data <+: e.Error.data ∧
    (goRfcError d g).Description = d ∧ (goRfcError d g).GoError = g := by
  have hnone : e.GoError = none → e.Error = "GORFC error: " ++ e.Description := by
    intro h
    apply String.ext
    simp [GoRfcError.Error, h, Sprintf, doPrintf, FmtOperand.text]
  have hsome : ∀ cause, e.GoError = some cause →
      e.Error = "GORFC error: " ++ e.Description ++ " | " ++ cause.Error := by
    intro cause h
    apply String.ext
    simp [GoRfcError.Error, h, Sprintf, doPrintf, FmtOperand.text]
  refine ⟨hnone, hsome, ?_, rfl, rfl⟩
  cases h : e.GoError with
  | none => rw [hnone h]
  | some cause =>
    rw [hsome cause h]
    exact ⟨(" | " ++ cause.Error).data, by simp [String.append_assoc]⟩

/-- An instance of claim C10 at the error `Call` is written to report, and at
an error that wraps a cause. -/
theorem GoRfcError_Error_format_witness :
    (goRfcError "Call() method requires an open connection" none).Error =
      "GORFC error: " ++ "Call() method requires an open connection" ∧
    (goRfcError "Could not fill" (some ⟨"strconv: bad syntax"⟩)).Error =
      "GORFC error: " ++ "Could not fill" ++ " | " ++ "strconv: bad syntax" :=
  ⟨(GoRfcError_Error_format
      (goRfcError "Call() method requires an open connection" none) "" none).1 rfl,
   (GoRfcError_Error_format
      (goRfcError "Could not fill" (some ⟨"strconv: bad syntax"⟩)) "" none).2.1
      ⟨"strconv: bad syntax"⟩ rfl⟩

/-! ## The connection methods on every input

Each body logs and returns before touching the receiver, so each method leaves
the receiver's fields as they were and returns the same values for every input. -/

theorem Alive_ret (c : Connection) : (Alive c).ret = true := rfl

theorem Close_outcome (c : Connection) : (Close c).conn = c ∧ (Close c).ret = none :=
  ⟨rfl, rfl⟩

theorem Open_outcome (c : Connection) : (Open c).conn = c ∧ (Open c).ret = none :=
  ⟨rfl, rfl⟩

theorem Ping_outcome (c : Connection) : (Ping c).conn = c ∧ (Ping c).ret = none :=
  ⟨rfl, rfl⟩

theorem RStrip_outcome (c : Connection) (b : Bool) :
    (RStrip c b).conn = c ∧ (RStrip c b).ret = none :=
  ⟨rfl, rfl⟩

theorem Call_outcome (c : Connection) (n : String) (p : GoValue) :
    (Call c n p).conn = c ∧ (Call c n p).ret = (none, none) :=
  ⟨rfl, rfl⟩

theorem ConnectionFromParams_ret (p : ConnectionParameters) :
    (ConnectionFromParams p).ret = (none, none) := rfl

/-! ## The claims on the connection -/

/-- Claim C1, evaluated at a failing input. On the Closed connection
`closedConn`, `Call` returns the nil result together with a nil error, where
the claim requires a non-nil GoRfcError. -/
theorem Call_closed_returns_nil_error :
    closedConn.alive = false ∧
    (Call closedConn "STFC_CONNECTION" (.map [("REQUTEXT", .string "ping")])).ret.1 = none ∧
    (Call closedConn "STFC_CONNECTION" (.map [("REQUTEXT", .string "ping")])).ret.2 = none :=
  ⟨rfl, rfl, rfl⟩

/-- Claim C2, evaluated at a failing input. On `closedConn`, whose liveness
flag is false, `Alive` returns true, which is not the value of the flag. -/
theorem Alive_closed_returns_true :
    closedConn.alive = false ∧ (Alive closedConn).ret = true ∧
    (Alive closedConn).ret ≠ closedConn.alive := by
  decide

/-- Claim C3, evaluated at a failing input. After `Close` on the Open connection
`openConn`, which returns a nil error, the liveness flag is still true and
`Alive` returns true. -/
theorem Close_open_stays_alive :
    openConn.alive = true ∧ (Close openConn).ret = none ∧
    (Close openConn).conn.alive = true ∧ (Alive (Close openConn).conn).ret = true := by
  decide

/-- Claim C4, evaluated at a failing input. `Open` on `closedConn` returns a
nil error and the liveness flag is false afterwards. -/
theorem Open_closed_stays_closed :
    closedConn.alive = false ∧ (Open closedConn).ret = none ∧
    (Open closedConn).conn.alive = false := by
  decide

/-- Claim C5, evaluated at a failing input. `Ping` on `closedConn` returns a
nil error and the liveness flag is false afterwards: no implicit open. -/
theorem Ping_closed_stays_closed :
    closedConn.alive = false ∧ (Ping closedConn).ret = none ∧
    (Ping closedConn).conn.alive = false := by
  decide

/-- Claim C6, evaluated at a failing input. `ConnectionFromParams` on
`sampleParams` returns a nil error together with a nil connection. -/
theorem ConnectionFromParams_returns_nil_nil :
    (ConnectionFromParams sampleParams).ret.2 = none ∧
    (ConnectionFromParams sampleParams).ret.1 = none := by
  decide

/-- Claim C7, evaluated at a failing input. `RStrip true` on `closedConn`, whose
rstrip policy is false, returns the nil pointer and the policy is false
afterwards. -/
theorem RStrip_returns_nil_keeps_policy :
    closedConn.rstrip = false ∧ (RStrip closedConn true).ret = none ∧
    (RStrip closedConn true).conn.rstrip = false := by
  decide

/-- Claim C8. For every connection and every function name,
`GetFunctionDescription` leaves the connection as it was: rstrip,
returnImportParams, alive and connectionParams hold the same values after the
call as before it. -/
theorem GetFunctionDescription_preserves_connection (c : Connection) (n : String) :
    (GetFunctionDescription c n).conn = c ∧
    (GetFunctionDescription c n).conn.rstrip = c.rstrip ∧
    (GetFunctionDescription c n).conn.returnImportParams = c.returnImportParams ∧
    (GetFunctionDescription c n).conn.alive = c.alive ∧
    (GetFunctionDescription c n).conn.connectionParams = c.connectionParams :=
  ⟨rfl, rfl, rfl, rfl, rfl⟩

end gorfc
